import Mathlib

/-!
# Verification of the weather-agent pipeline (`weather.py`)

Shallow embedding of the tool-dispatch and weather-lookup pipeline of the
repository's single source file `weather.py`.  Network effects are made
explicit: each function that performs HTTP requests takes the (parsed)
responses of the endpoints it may query as extra arguments, and the current
UTC instant is an explicit parameter.  Timestamps and datetimes are modelled
as integer seconds since the Unix epoch (Python `datetime` comparison and
`.date()` projection become integer comparison and floor division by 86400);
JSON numbers that are only ever interpolated into strings are modelled by
their rendered decimal form.
-/

set_option maxRecDepth 4000
set_option linter.unusedVariables false

/-- ASCII decimal digit, the relevant fragment of the regex class `\d`
(`weather.py` line 141). -/
def isAsciiDigit (c : Char) : Bool := ('0' ≤ c) && (c ≤ '9')

/-- ASCII word character, the relevant fragment of the regex class `\w`
used by the `\b` boundaries in `weather.py` line 141. -/
def isWordChar (c : Char) : Bool := c.isAlphanum || c == '_'

/-- Gregorian leap-year test, as used by Python's date validation. -/
def isLeapYear (y : Nat) : Bool := y % 4 == 0 && (y % 100 != 0 || y % 400 == 0)

/-- Number of days in a month, as used by Python's date validation. -/
def daysInMonthPy (y m : Nat) : Nat :=
  if m == 2 then (if isLeapYear y then 29 else 28)
  else if m == 4 || m == 6 || m == 9 || m == 11 then 30
  else 31

/-- Full English month name, as produced by `strftime` directive `%B`. -/
def monthName : Nat → String
  | 1 => "January"
  | 2 => "February"
  | 3 => "March"
  | 4 => "April"
  | 5 => "May"
  | 6 => "June"
  | 7 => "July"
  | 8 => "August"
  | 9 => "September"
  | 10 => "October"
  | 11 => "November"
  | 12 => "December"
  | _ => ""

/-- Left-pad a string with zeros to the given width (`strftime` zero padding). -/
def padZeros (s : String) (w : Nat) : String :=
  String.mk (List.replicate (w - s.length) '0') ++ s

/-- Civil (proleptic Gregorian) date of a day number counted from 1970-01-01,
the date arithmetic underlying Python's `datetime.utcfromtimestamp(...).date()`
and `strftime`.  Returns (year, month, day). -/
def civilFromDays (z : Int) : Int × Nat × Nat :=
  let zz := z + 719468
  let era : Int := Int.fdiv zz 146097
  let doe : Nat := (zz - era * 146097).toNat
  let yoe : Nat := (doe - doe / 1460 + doe / 36524 - doe / 146096) / 365
  let doy : Nat := doe - (365 * yoe + yoe / 4 - yoe / 100)
  let mp : Nat := (5 * doy + 2) / 153
  let d : Nat := doy - (153 * mp + 2) / 5 + 1
  let m : Nat := if mp < 10 then mp + 3 else mp - 9
  let y : Int := (yoe : Int) + era * 400 + (if m ≤ 2 then 1 else 0)
  (y, m, d)

/-- `datetime.utcfromtimestamp(ts).date()` as a day number: floor division of
the timestamp by 86400 (`//` in Python floors, as does `Int.fdiv`). -/
def epochDay (ts : Int) : Int := Int.fdiv ts 86400

/-- `strftime('%Y-%m-%d')` applied to the UTC calendar date of day number
`z` (`weather.py` lines 70 and 84). -/
def formatYMD (z : Int) : String :=
  let c := civilFromDays z
  padZeros (toString c.1) 4 ++ "-" ++ padZeros (toString c.2.1) 2 ++ "-" ++
    padZeros (toString c.2.2) 2

/-- `datetime.strptime(s, '%Y-%m-%d').strftime('%d %B')` (`weather.py`
lines 132-133) for the well-formed zero-padded date strings produced by
`get_weather`; on a malformed string the source would raise `ValueError`,
here the function totalizes to `""`. -/
def format_day_month (s : String) : String :=
  match s.splitOn "-" with
  | [_, m, d] => d ++ " " ++ monthName (m.toNat?.getD 0)
  | _ => ""

/-- Python's substring test `pat in s`. -/
def containsSub (s pat : String) : Bool := decide (pat.data <:+: s.data)

/-- `str.lower()` on the ASCII letters relevant to the narrative branch
keywords (`weather.py` lines 107 and 115). -/
def lowerAscii (s : String) : String := String.mk (s.data.map Char.toLower)

/-- Python truthiness of an optional string (`if location:` in
`weather.py` line 157): `None` and `""` are falsy. -/
def truthy : Option String → Bool
  | none => false
  | some s => !s.isEmpty

/-- A `datetime.date` value as parsed by `strptime('%Y-%m-%d')`. -/
structure PyDate where
  year : Nat
  month : Nat
  day : Nat
deriving DecidableEq, Repr

/-- The weather dict built by `get_weather` (`weather.py` lines 62-71 and
76-85).  Fields that are JSON numbers only ever interpolated into output
strings (`temperature`, `wind_speed`) are carried as their rendered decimal
form; `humidity` and `pressure` are JSON integers. -/
structure WeatherRecord where
  location : String
  temperature : String
  description : String
  icon : String
  humidity : Nat
  pressure : Nat
  wind_speed : String
  date : String
deriving DecidableEq, Repr

/-- Result of `get_weather`: either the weather dict or an error dict
`{"error": msg}`. -/
inductive WeatherResult where
  | ok (w : WeatherRecord)
  | error (msg : String)
deriving DecidableEq, Repr

/-- One slot of the forecast response's `list` (`weather.py` lines 59-70):
the fields of `forecast` that the code reads. -/
structure ForecastSlot where
  dt : Int
  temp : String
  description : String
  icon : String
  humidity : Nat
  pressure : Nat
  wind_speed : String
deriving DecidableEq, Repr

/-- Parsed JSON body of a forecast-endpoint response: the `city.name` field
and the `list` of slots (`weather.py` lines 59-63). -/
structure ForecastBody where
  city_name : String
  list : List ForecastSlot
deriving DecidableEq, Repr

/-- Parsed JSON body of a current-conditions (`/weather`) response:
the fields read in `weather.py` lines 76-84. -/
structure CurrentBody where
  name : String
  temp : String
  description : String
  icon : String
  humidity : Nat
  pressure : Nat
  wind_speed : String
  dt : Int
deriving DecidableEq, Repr

/-- Response of the IP-echo service `api.ipify.org` (`weather.py` line 28):
a `requests` response has a status code and a body text; the code reads
only `.text`. -/
structure IpEchoResponse where
  status_code : Nat
  text : String
deriving DecidableEq, Repr

/-- Response of the geolocation service `ipinfo.io` (`weather.py`
lines 29-33): status code and the optional `city` field of the JSON body
(`data.get("city")` is `None` when the field is missing). -/
structure GeoResponse where
  status_code : Nat
  city : Option String
deriving DecidableEq, Repr

/-- `get_location_by_ip` (`weather.py` lines 26-36).  The two HTTP calls are
passed in explicitly: `echo` is the result of `requests.get('https://api.ipify.org')`
(`Except.error ()` when the call raises), and `geo ip` is the result of
`requests.get(f"https://ipinfo.io/{ip}/json")` for the echoed text `ip`
(`Except.error ()` when the call or the JSON decoding raises).  The source
wraps both calls in one `try` that returns `None` on any exception, returns
`data.get("city")` on a 200 geolocation response, and falls off the end of
the function (returning `None`) on any other status. -/
def get_location_by_ip (echo : Except Unit IpEchoResponse)
    (geo : String → Except Unit GeoResponse) : Option String :=
  match echo with
  | Except.error _ => none
  | Except.ok e =>
    match geo e.text with
    | Except.error _ => none
    | Except.ok r =>
      if r.status_code = 200 then r.city else none

/-- Endpoint URL chosen by `get_weather` (`weather.py` lines 41-46):
`/weather` when `date` is `None`, `/forecast` otherwise. -/
def weatherEndpointUrl (date : Option Int) : String :=
  match date with
  | none => "https://api.openweathermap.org/data/2.5/weather"
  | some _ => "https://api.openweathermap.org/data/2.5/forecast"

/-- The weather dict built from one forecast slot (`weather.py` lines 62-71). -/
def recordOfSlot (city_name : String) (f : ForecastSlot) : WeatherRecord :=
  { location := city_name
    temperature := f.temp
    description := f.description
    icon := f.icon
    humidity := f.humidity
    pressure := f.pressure
    wind_speed := f.wind_speed
    date := formatYMD (epochDay f.dt) }

/-- The weather dict built from a current-conditions body
(`weather.py` lines 76-85). -/
def recordOfCurrent (cb : CurrentBody) : WeatherRecord :=
  { location := cb.name
    temperature := cb.temp
    description := cb.description
    icon := cb.icon
    humidity := cb.humidity
    pressure := cb.pressure
    wind_speed := cb.wind_speed
    date := formatYMD (epochDay cb.dt) }

/-- The `for forecast in data["list"]` loop of `get_weather`
(`weather.py` lines 59-73): return the dict built from the first slot whose
UTC calendar date equals `date.date()`, else the not-available error dict. -/
def scanForecast (city_name : String) (d : Int) : List ForecastSlot → WeatherResult
  | [] => WeatherResult.error "Weather data not available for this date."
  | f :: rest =>
    if epochDay f.dt == epochDay d then WeatherResult.ok (recordOfSlot city_name f)
    else scanForecast city_name d rest

/-- `get_weather` (`weather.py` lines 40-88).  The upstream responses are
explicit arguments: `currentResp` is the (status, parsed body) the
`/weather` endpoint would return and `forecastResp` the (status, parsed
body) the `/forecast` endpoint would return for the request parameters
built from `location` (lines 48-52); the branch on `date` selects which
endpoint is actually queried (lines 41-46 and 57). -/
def get_weather (currentResp : Nat × CurrentBody) (forecastResp : Nat × ForecastBody)
    (location : String) (date : Option Int) : WeatherResult :=
  match date with
  | some d =>
    if forecastResp.1 = 200 then
      scanForecast forecastResp.2.city_name d forecastResp.2.list
    else WeatherResult.error ("API error: " ++ toString forecastResp.1)
  | none =>
    if currentResp.1 = 200 then WeatherResult.ok (recordOfCurrent currentResp.2)
    else WeatherResult.error ("API error: " ++ toString currentResp.1)

/-- The `weather_details` summary line (`weather.py` lines 97-103). -/
def weatherDetails (w : WeatherRecord) : String :=
  "Temperature: " ++ w.temperature ++ "°C, " ++
  "Weather: " ++ w.description ++ ", " ++
  "Humidity: " ++ toString w.humidity ++ "%, " ++
  "Pressure: " ++ toString w.pressure ++ " hPa, " ++
  "Wind Speed: " ++ w.wind_speed ++ " m/s"

/-- The haze narrative template (`weather.py` lines 108-114). -/
def hazeNarrative (w : WeatherRecord) : String :=
  "The weather in " ++ w.location ++ " on " ++ w.date ++
  " will be characterized by " ++ w.description ++ " with a temperature of " ++
  w.temperature ++ "°C. " ++
  "The humidity is at " ++ toString w.humidity ++
  "%, making the air feel quite heavy and sticky, typical for this region. " ++
  "Atmospheric pressure is " ++ toString w.pressure ++
  " hPa, suggesting stable conditions, though the haze indicates potential air quality concerns, possibly due to pollution or dust. " ++
  "A gentle breeze at " ++ w.wind_speed ++
  " m/s offers slight relief but isn\x27t strong enough to clear the haze. " ++
  "Light clothing and staying hydrated are recommended, and consider limiting outdoor activities if you\x27re sensitive to air quality."

/-- The cloud narrative template (`weather.py` lines 116-122). -/
def cloudNarrative (w : WeatherRecord) : String :=
  "The weather in " ++ w.location ++ " on " ++ w.date ++
  " will feature " ++ w.description ++ " with a temperature of " ++
  w.temperature ++ "°C. " ++
  "The cloud cover will provide some shade, offering relief from direct sunlight and making it feel more comfortable compared to clearer days. " ++
  "With humidity at " ++ toString w.humidity ++
  "%, the air might feel a bit damp, and the pressure at " ++ toString w.pressure ++
  " hPa suggests a stable atmosphere. " ++
  "Wind speed is " ++ w.wind_speed ++
  " m/s, which is mild and won’t significantly impact the day. " ++
  "The cloudy conditions might hint at a chance of light rain or drizzle, so carrying an umbrella could be wise."

/-- The generic narrative template (`weather.py` lines 124-128). -/
def genericNarrative (w : WeatherRecord) : String :=
  "The weather in " ++ w.location ++ " on " ++ w.date ++
  " will be " ++ w.description ++ " with a temperature of " ++
  w.temperature ++ "°C. " ++
  "Humidity is at " ++ toString w.humidity ++ "%, pressure at " ++
  toString w.pressure ++ " hPa, and wind speed at " ++ w.wind_speed ++ " m/s. " ++
  "Expect typical conditions for this weather pattern—stay prepared for changes and dress accordingly."

/-- The narrative branch selection of `format_weather_response`
(`weather.py` lines 106-128): case-insensitive substring match on the
description, haze before cloud before generic.  (`lowerAscii`
lowercases ASCII letters, the fragment of `str.lower()` relevant here.) -/
def narrativeOf (w : WeatherRecord) : String :=
  if containsSub (lowerAscii w.description) "haze" then hazeNarrative w
  else if containsSub (lowerAscii w.description) "cloud" then cloudNarrative w
  else genericNarrative w

/-- `format_weather_response` (`weather.py` lines 92-137).  An error dict
short-circuits to its message (line 93-94); otherwise the narrative is
selected, and a non-`None` `days_ahead` wraps it with the
"the weather after N days ..." prefix (lines 131-134). -/
def format_weather_response (weather : WeatherResult) (days_ahead : Option Int) : String :=
  match weather with
  | WeatherResult.error msg => msg
  | WeatherResult.ok w =>
    match days_ahead with
    | some n =>
      "the weather after " ++ toString n ++ " days in " ++
        format_day_month w.date ++ " will be like \x7b " ++ weatherDetails w ++
        " \x7d\n\n" ++ narrativeOf w
    | none => narrativeOf w

/-- Match of the regex `\d{4}-\d{2}-\d{2}\b` at the head of the character
list: ten characters of date shape followed by a word boundary (end of
string or a non-word character).  This is the part of the pattern of
`weather.py` line 141 to the right of the leading `\b`. -/
def matchDateAt : List Char → Bool
  | a :: b :: c :: d :: h1 :: m1 :: m2 :: h2 :: d1 :: d2 :: rest =>
    isAsciiDigit a && isAsciiDigit b && isAsciiDigit c && isAsciiDigit d &&
    h1 == '-' && isAsciiDigit m1 && isAsciiDigit m2 && h2 == '-' &&
    isAsciiDigit d1 && isAsciiDigit d2 &&
    (match rest with
     | [] => true
     | k :: _ => !isWordChar k)
  | _ => false

/-- `re.search` of the pattern `\b(\d{4}-\d{2}-\d{2})\b` (`weather.py`
lines 141-142): scan positions left to right; a position is eligible when
the preceding character (tracked in `prev`) is not a word character, since
the pattern starts with a digit; return the ten matched characters of the
leftmost match. -/
def searchFrom : Bool → List Char → Option (List Char)
  | _, [] => none
  | prev, c :: rest =>
    if !prev && matchDateAt (c :: rest) then some ((c :: rest).take 10)
    else searchFrom (isWordChar c) rest

/-- Numeric value of an ASCII digit. -/
def digitVal (c : Char) : Nat := c.toNat - '0'.toNat

/-- `datetime.strptime(s, "%Y-%m-%d")` on the ten matched characters
(`weather.py` line 145): parse the numbers and validate them as a calendar
date (Python requires year ≥ 1, month in 1..12, day in the month's range);
an invalid date raises, which the caller turns into `None` (line 146-147). -/
def strptimeYMD (cs : List Char) : Option PyDate :=
  match cs with
  | [y1, y2, y3, y4, _, m1, m2, _, d1, d2] =>
    let y := digitVal y1 * 1000 + digitVal y2 * 100 + digitVal y3 * 10 + digitVal y4
    let m := digitVal m1 * 10 + digitVal m2
    let d := digitVal d1 * 10 + digitVal d2
    if 1 ≤ y ∧ 1 ≤ m ∧ m ≤ 12 ∧ 1 ≤ d ∧ d ≤ daysInMonthPy y m then
      some { year := y, month := m, day := d }
    else none
  | _ => none

/-- `extract_date_from_query` (`weather.py` lines 139-148): search for the
leftmost word-bounded `\d{4}-\d{2}-\d{2}` match, then `strptime` it,
returning `None` when there is no match or the match is not a valid date. -/
def extract_date_from_query (query : String) : Option PyDate :=
  match searchFrom false query.data with
  | some m => strptimeYMD m
  | none => none

/-- Specification-side predicate: the regex `\b(\d{4}-\d{2}-\d{2})\b` of
`weather.py` line 141 matches at position `n` of `l`, stated by index:
position 0 or a non-word character before `n`, and the date shape with its
right boundary starting at `n`.  Generalized over the word-character status
`prev` of the character before `l` for the induction. -/
def shapeFrom (prev : Bool) (l : List Char) (n : Nat) : Bool :=
  (if n == 0 then !prev else !isWordChar (l.getD (n - 1) ' ')) && matchDateAt (l.drop n)

/-- Specification-side predicate: the date regex matches at position `n`
of the full input `l`. -/
def dateShapeAt (l : List Char) (n : Nat) : Bool := shapeFrom false l n

/-- The `days_ahead` computation shared by the two tool entry points
(`weather.py` lines 159 and 172):
`(date.date() - datetime.utcnow().date()).days if date > datetime.utcnow() else None`. -/
def days_ahead_of (date now : Int) : Option Int :=
  if now < date then some (epochDay date - epochDay now) else none

/-- `get_weather_for_location` (`weather.py` lines 166-174): default a
`None` date to the current UTC datetime `now`, compute `days_ahead`, fetch
the weather (always with a non-`None` date) and format it. -/
def get_weather_for_location (currentResp : Nat × CurrentBody)
    (forecastResp : Nat × ForecastBody) (now : Int) (location : String)
    (date? : Option Int) : String :=
  let date := date?.getD now
  let days_ahead := days_ahead_of date now
  let weather := get_weather currentResp forecastResp location (some date)
  format_weather_response weather days_ahead

/-- `get_weather_without_location` (`weather.py` lines 151-163): default a
`None` date to `now`, resolve the location by IP, and either fetch and
format the weather for it or report that the location could not be
determined.  (`query` is accepted and unused, as in the source.) -/
def get_weather_without_location (currentResp : Nat × CurrentBody)
    (forecastResp : Nat × ForecastBody) (echo : Except Unit IpEchoResponse)
    (geo : String → Except Unit GeoResponse) (now : Int) (query : String)
    (date? : Option Int) : String :=
  let date := date?.getD now
  let location := get_location_by_ip echo geo
  if truthy location then
    let days_ahead := days_ahead_of date now
    let weather := get_weather currentResp forecastResp (location.getD "") (some date)
    format_weather_response weather days_ahead
  else "Could not determine location by IP."

/-- Concrete current-conditions body used to instantiate theorems. -/
def sampleCurrent : CurrentBody :=
  ⟨"Paris", "21.4", "haze", "50d", 62, 1013, "3.6", 1748217600⟩

/-- Concrete forecast slot (2025-05-26 00:00 UTC). -/
def sampleSlotMist : ForecastSlot := ⟨1748217600, "24.1", "mist", "50d", 70, 1011, "2.2"⟩

/-- Concrete forecast slot (2025-05-27 00:00 UTC). -/
def sampleSlotHaze : ForecastSlot := ⟨1748304000, "25.0", "haze", "50d", 65, 1010, "3.0"⟩

/-- Concrete forecast slot (2025-05-27 03:00 UTC, same calendar day as
`sampleSlotHaze`). -/
def sampleSlotLate : ForecastSlot := ⟨1748314800, "26.0", "clear sky", "01d", 60, 1009, "3.1"⟩

/-- Concrete forecast body used to instantiate theorems. -/
def sampleForecast : ForecastBody := ⟨"Paris", [sampleSlotMist, sampleSlotHaze, sampleSlotLate]⟩

/-- Concrete record whose description contains "light rain and clouds". -/
def lracRecord : WeatherRecord :=
  ⟨"Dhaka", "28.0", "light rain and clouds", "10d", 80, 1008, "4.1", "2025-05-26"⟩

/-- Concrete record whose description contains both "haze" and
"light rain and clouds". -/
def hazeMixRecord : WeatherRecord :=
  ⟨"Dhaka", "28.0", "haze, light rain and clouds", "50d", 80, 1008, "4.1", "2025-05-26"⟩

/-- Concrete forecast body with a single slot on the epoch day
(1970-01-01 02:00 UTC). -/
def sameDayForecast : ForecastBody := ⟨"Dhaka", [⟨7200, "30", "clear sky", "01d", 70, 1005, "3"⟩]⟩

/-- The recursive forecast scan returns the first slot matching the
requested calendar day, in `List.find?` form. -/
theorem scanForecast_find (city : String) (d : Int) (l : List ForecastSlot) :
    scanForecast city d l =
      match l.find? (fun s => epochDay s.dt == epochDay d) with
      | some f => WeatherResult.ok (recordOfSlot city f)
      | none => WeatherResult.error "Weather data not available for this date." := by
  induction l with
  | nil => rfl
  | cons f rest ih =>
    cases h : (epochDay f.dt == epochDay d) with
    | true => simp [scanForecast, List.find?, h]
    | false => simp [scanForecast, List.find?, h, ih]

/-- No position of the empty list matches the date regex. -/
theorem shapeFrom_nil (prev : Bool) (n : Nat) : shapeFrom prev [] n = false := by
  simp [shapeFrom, List.drop_nil, show matchDateAt [] = false from rfl]

/-- Position 0 matches exactly when the previous character is not a word
character and the shape matches at the head. -/
theorem shapeFrom_zero (prev : Bool) (l : List Char) :
    shapeFrom prev l 0 = (!prev && matchDateAt l) := by
  simp [shapeFrom]

/-- Shifting the match predicate by one position past `c`. -/
theorem shapeFrom_succ (prev : Bool) (c : Char) (rest : List Char) (n : Nat) :
    shapeFrom prev (c :: rest) (n + 1) = shapeFrom (isWordChar c) rest n := by
  cases n with
  | zero => simp [shapeFrom]
  | succ k => simp [shapeFrom]

/-- If no position matches the date regex, the scan finds nothing. -/
theorem searchFrom_eq_none (prev : Bool) (l : List Char)
    (h : ∀ n, shapeFrom prev l n = false) : searchFrom prev l = none := by
  induction l generalizing prev with
  | nil => rfl
  | cons c rest ih =>
    have h0 := h 0
    rw [shapeFrom_zero] at h0
    have step : searchFrom prev (c :: rest) = searchFrom (isWordChar c) rest := by
      simp [searchFrom, h0]
    rw [step]
    exact ih (isWordChar c) fun n => by
      have hs := h (n + 1)
      rwa [shapeFrom_succ] at hs

/-- The scan returns the ten characters at the least matching position. -/
theorem searchFrom_eq_some (prev : Bool) (l : List Char) (n : Nat)
    (hn : shapeFrom prev l n = true)
    (hmin : ∀ m, m < n → shapeFrom prev l m = false) :
    searchFrom prev l = some ((l.drop n).take 10) := by
  induction l generalizing prev n with
  | nil => rw [shapeFrom_nil] at hn; exact absurd hn (by simp)
  | cons c rest ih =>
    cases n with
    | zero =>
      rw [shapeFrom_zero] at hn
      simp [searchFrom, hn]
    | succ k =>
      have h0 := hmin 0 (Nat.succ_pos k)
      rw [shapeFrom_zero] at h0
      have step : searchFrom prev (c :: rest) = searchFrom (isWordChar c) rest := by
        simp [searchFrom, h0]
      rw [step, List.drop_succ_cons]
      refine ih (isWordChar c) k (by rwa [shapeFrom_succ] at hn) fun m hm => ?_
      have hs := hmin (m + 1) (Nat.succ_lt_succ hm)
      rwa [shapeFrom_succ] at hs

/-- **C1**: for a non-`None` date and a 200 forecast response, `get_weather`
returns the weather record built from the first slot of the response's
`list` whose UTC calendar date equals `date.date()`; if no slot matches,
it returns exactly the error dict
`{"error": "Weather data not available for this date."}`. -/
theorem get_weather_forecast_first_match (cur : Nat × CurrentBody) (fb : ForecastBody)
    (loc : String) (d : Int) :
    (∀ f, fb.list.find? (fun s => epochDay s.dt == epochDay d) = some f →
      get_weather cur (200, fb) loc (some d) = WeatherResult.ok (recordOfSlot fb.city_name f))
    ∧ (fb.list.find? (fun s => epochDay s.dt == epochDay d) = none →
      get_weather cur (200, fb) loc (some d) =
        WeatherResult.error ("Weather data not available for this date.")) := by
  constructor
  · intro f hf
    simp [get_weather, scanForecast_find, hf]
  · intro hf
    simp [get_weather, scanForecast_find, hf]

/-- Witness for C1: a slot on the requested day preceded by one on another
day is the one returned; a list with no matching slot yields the error. -/
theorem get_weather_forecast_first_match_witness :
    get_weather (404, sampleCurrent) (200, sampleForecast) ("Paris") (some 1748304000)
      = WeatherResult.ok (recordOfSlot ("Paris") sampleSlotHaze)
    ∧ get_weather (404, sampleCurrent) (200, sampleForecast) ("Paris") (some 0)
      = WeatherResult.error ("Weather data not available for this date.") :=
  ⟨(get_weather_forecast_first_match (404, sampleCurrent) sampleForecast ("Paris")
      1748304000).1 sampleSlotHaze (by decide),
   (get_weather_forecast_first_match (404, sampleCurrent) sampleForecast ("Paris")
      0).2 (by decide)⟩

/-- **C2** (amended): `extract_date_from_query` is determined by the
*leftmost* word-bounded `\d{4}-\d{2}-\d{2}` match: when no position of the
input matches the pattern it returns `None`, and when `n` is the least
matching position it returns the `strptime` parse of the ten characters
there — `None` when they are not a valid calendar date, even if a valid
date substring occurs later in the text. -/
theorem extract_date_leftmost_spec (q : String) :
    ((∀ n, dateShapeAt q.data n = false) → extract_date_from_query q = none)
    ∧ (∀ n, dateShapeAt q.data n = true → (∀ m, m < n → dateShapeAt q.data m = false) →
        extract_date_from_query q = strptimeYMD ((q.data.drop n).take 10)) := by
  constructor
  · intro h
    simp only [dateShapeAt] at h
    unfold extract_date_from_query
    rw [searchFrom_eq_none false q.data h]
  · intro n hn hmin
    simp only [dateShapeAt] at hn hmin
    unfold extract_date_from_query
    rw [searchFrom_eq_some false q.data n hn hmin]

/-- Witness for C2: in "on 2025-06-01" the leftmost (only) match is at
position 3 and parses to June 1st, 2025. -/
theorem extract_date_leftmost_spec_witness :
    extract_date_from_query ("on 2025-06-01") = some ⟨2025, 6, 1⟩
    ∧ dateShapeAt (String.data ("on 2025-06-01")) 3 = true := by
  refine ⟨?_, by decide⟩
  have h := (extract_date_leftmost_spec ("on 2025-06-01")).2 3 (by decide) (by decide)
  rw [h]
  decide

/-- Counterexample for C2 as stated: "1999-99-99 2025-06-01" contains the
valid word-bounded date substring "2025-06-01" (at position 11), yet the
extractor returns `None`, because the leftmost regex match "1999-99-99"
fails `strptime`. -/
theorem extract_date_shadowed_valid_ce :
    dateShapeAt (String.data ("1999-99-99 2025-06-01")) 11 = true
    ∧ strptimeYMD (((String.data ("1999-99-99 2025-06-01")).drop 11).take 10)
        = some ⟨2025, 6, 1⟩
    ∧ extract_date_from_query ("1999-99-99 2025-06-01") = none := by
  refine ⟨by decide, by decide, by decide⟩

/-- **C3**: `get_weather` with a `None` date targets the current-conditions
endpoint and with a non-`None` date the forecast endpoint; on a 200
response (and, for forecasts, a matching slot) the returned record has all
of `location`, `temperature`, `description`, `icon`, `humidity`,
`pressure`, `wind_speed` and `date` populated from the response. -/
theorem get_weather_success_record_fields (cb : CurrentBody) (fb : ForecastBody)
    (cur : Nat × CurrentBody) (fore : Nat × ForecastBody) (loc : String) (d : Int) :
    weatherEndpointUrl none = ("https://api.openweathermap.org/data/2.5/weather")
    ∧ weatherEndpointUrl (some d) = ("https://api.openweathermap.org/data/2.5/forecast")
    ∧ get_weather (200, cb) fore loc none = WeatherResult.ok
        { location := cb.name, temperature := cb.temp, description := cb.description,
          icon := cb.icon, humidity := cb.humidity, pressure := cb.pressure,
          wind_speed := cb.wind_speed, date := formatYMD (epochDay cb.dt) }
    ∧ (∀ f, fb.list.find? (fun s => epochDay s.dt == epochDay d) = some f →
        get_weather cur (200, fb) loc (some d) = WeatherResult.ok
          { location := fb.city_name, temperature := f.temp, description := f.description,
            icon := f.icon, humidity := f.humidity, pressure := f.pressure,
            wind_speed := f.wind_speed, date := formatYMD (epochDay f.dt) }) := by
  refine ⟨rfl, rfl, rfl, ?_⟩
  intro f hf
  simp [get_weather, scanForecast_find, hf, recordOfSlot]

/-- Witness for C3: both endpoints succeed on the sample responses and
yield fully populated records. -/
theorem get_weather_success_record_fields_witness :
    get_weather (200, sampleCurrent) (404, sampleForecast) ("Paris") none
      = WeatherResult.ok
        { location := "Paris", temperature := "21.4", description := "haze",
          icon := "50d", humidity := 62, pressure := 1013, wind_speed := "3.6",
          date := "2025-05-26" }
    ∧ get_weather (404, sampleCurrent) (200, sampleForecast) ("Paris") (some 1748217600)
      = WeatherResult.ok
        { location := "Paris", temperature := "24.1", description := "mist",
          icon := "50d", humidity := 70, pressure := 1011, wind_speed := "2.2",
          date := "2025-05-26" } :=
  ⟨(get_weather_success_record_fields sampleCurrent sampleForecast
      (404, sampleCurrent) (404, sampleForecast) ("Paris") 0).2.2.1,
   (get_weather_success_record_fields sampleCurrent sampleForecast
      (404, sampleCurrent) (404, sampleForecast) ("Paris") 1748217600).2.2.2
     sampleSlotMist (by decide)⟩

/-- **C4** (amended): `get_location_by_ip` returns `None` when either call
raises or when the geolocation response has a non-200 status, and returns
the geolocation response's `city` field when no exception occurs and that
status is 200.  The IP-echo response's own status code is never inspected:
only an exception in the echo call counts as its failure. -/
theorem get_location_by_ip_cases (echo : Except Unit IpEchoResponse)
    (geo : String → Except Unit GeoResponse) :
    (echo = Except.error () → get_location_by_ip echo geo = none)
    ∧ (∀ e, echo = Except.ok e → geo e.text = Except.error () →
        get_location_by_ip echo geo = none)
    ∧ (∀ e r, echo = Except.ok e → geo e.text = Except.ok r → r.status_code ≠ 200 →
        get_location_by_ip echo geo = none)
    ∧ (∀ e r, echo = Except.ok e → geo e.text = Except.ok r → r.status_code = 200 →
        get_location_by_ip echo geo = r.city) := by
  refine ⟨?_, ?_, ?_, ?_⟩
  · intro h; subst h; rfl
  · intro e he hg; subst he; simp [get_location_by_ip, hg]
  · intro e r he hg hs; subst he; simp [get_location_by_ip, hg, hs]
  · intro e r he hg hs; subst he; simp [get_location_by_ip, hg, hs]

/-- Witness for C4: success chain returns the city; an echo exception, a
geolocation exception and a 404 geolocation status each return `None`. -/
theorem get_location_by_ip_cases_witness :
    get_location_by_ip (Except.ok ⟨200, ("1.2.3.4")⟩)
        (fun _ => Except.ok ⟨200, some ("Dhaka")⟩) = some ("Dhaka")
    ∧ get_location_by_ip (Except.error ())
        (fun _ => Except.ok ⟨200, some ("Dhaka")⟩) = none
    ∧ get_location_by_ip (Except.ok ⟨200, ("1.2.3.4")⟩)
        (fun _ => Except.error ()) = none
    ∧ get_location_by_ip (Except.ok ⟨200, ("1.2.3.4")⟩)
        (fun _ => Except.ok ⟨404, none⟩) = none :=
  ⟨(get_location_by_ip_cases _ _).2.2.2 ⟨200, ("1.2.3.4")⟩ ⟨200, some ("Dhaka")⟩ rfl rfl rfl,
   (get_location_by_ip_cases _ _).1 rfl,
   (get_location_by_ip_cases _ _).2.1 ⟨200, ("1.2.3.4")⟩ rfl rfl,
   (get_location_by_ip_cases _ _).2.2.1 ⟨200, ("1.2.3.4")⟩ ⟨404, none⟩ rfl rfl (by decide)⟩

/-- Counterexample for C4 as stated: the IP-echo call returns a non-success
status 500 (without raising), yet the function still returns the city —
a failure status in the echo call does not yield `None`. -/
theorem get_location_echo_status_ignored_ce :
    get_location_by_ip (Except.ok ⟨500, ("1.2.3.4")⟩)
        (fun _ => Except.ok ⟨200, some ("Paris")⟩) = some ("Paris")
    ∧ some ("Paris") ≠ (none : Option String) :=
  ⟨rfl, by decide⟩

/-- **C5**: whenever `get_location_by_ip` returns `None`,
`get_weather_without_location` returns exactly
"Could not determine location by IP." and does not invoke `get_weather`:
the result is independent of the weather endpoints' responses. -/
theorem get_weather_without_location_none_case
    (cur cur2 : Nat × CurrentBody) (fore fore2 : Nat × ForecastBody)
    (echo : Except Unit IpEchoResponse) (geo : String → Except Unit GeoResponse)
    (now : Int) (q : String) (d? : Option Int)
    (h : get_location_by_ip echo geo = none) :
    get_weather_without_location cur fore echo geo now q d?
      = ("Could not determine location by IP.")
    ∧ get_weather_without_location cur fore echo geo now q d?
      = get_weather_without_location cur2 fore2 echo geo now q d? := by
  constructor <;> simp [get_weather_without_location, h, truthy]

/-- Witness for C5: a failing IP-echo call makes the location `None` and the
entry point reports it, for any weather responses. -/
theorem get_weather_without_location_none_case_witness :
    get_weather_without_location (200, sampleCurrent) (200, sampleForecast)
        (Except.error ()) (fun _ => Except.error ()) 0 ("what is the weather") none
      = ("Could not determine location by IP.")
    ∧ get_weather_without_location (200, sampleCurrent) (200, sampleForecast)
        (Except.error ()) (fun _ => Except.error ()) 0 ("what is the weather") none
      = get_weather_without_location (404, sampleCurrent) (500, sampleForecast)
        (Except.error ()) (fun _ => Except.error ()) 0 ("what is the weather") none :=
  get_weather_without_location_none_case (200, sampleCurrent) (404, sampleCurrent)
    (200, sampleForecast) (500, sampleForecast) (Except.error ())
    (fun _ => Except.error ()) 0 ("what is the weather") none rfl

/-- **C6**: on any non-200 response status, `get_weather` returns the error
dict `{"error": "API error: <status>"}`, on both the current-conditions
branch and the forecast branch. -/
theorem get_weather_api_error_status (s : Nat) (cb : CurrentBody) (fb : ForecastBody)
    (cur : Nat × CurrentBody) (fore : Nat × ForecastBody) (loc : String) (d : Int)
    (hs : s ≠ 200) :
    get_weather (s, cb) fore loc none
      = WeatherResult.error (("API error: ") ++ toString s)
    ∧ get_weather cur (s, fb) loc (some d)
      = WeatherResult.error (("API error: ") ++ toString s) := by
  constructor <;> simp [get_weather, hs]

/-- Witness for C6: statuses 404 and 503 map to their error strings. -/
theorem get_weather_api_error_status_witness :
    get_weather (404, sampleCurrent) (200, sampleForecast) ("Paris") none
      = WeatherResult.error ("API error: 404")
    ∧ get_weather (200, sampleCurrent) (503, sampleForecast) ("Paris") (some 0)
      = WeatherResult.error ("API error: 503") :=
  ⟨(get_weather_api_error_status 404 sampleCurrent sampleForecast
      (200, sampleCurrent) (200, sampleForecast) ("Paris") 0 (by decide)).1,
   (get_weather_api_error_status 503 sampleCurrent sampleForecast
      (200, sampleCurrent) (200, sampleForecast) ("Paris") 0 (by decide)).2⟩

/-- **C7** (amended): the narrative template is selected by case-insensitive
substring match on the description with "haze" taking priority over
"cloud"; a description containing "light rain and clouds" *and not
containing "haze"* selects the cloud narrative (substring, not
whole-word). -/
theorem format_branch_priority (w : WeatherRecord) :
    (containsSub (lowerAscii w.description) ("haze") = true →
      format_weather_response (WeatherResult.ok w) none = hazeNarrative w)
    ∧ (containsSub (lowerAscii w.description) ("haze") = false →
       containsSub (lowerAscii w.description) ("cloud") = true →
      format_weather_response (WeatherResult.ok w) none = cloudNarrative w)
    ∧ (containsSub (lowerAscii w.description) ("haze") = false →
       containsSub (lowerAscii w.description) ("cloud") = false →
      format_weather_response (WeatherResult.ok w) none = genericNarrative w)
    ∧ (containsSub (lowerAscii w.description) ("light rain and clouds") = true →
       containsSub (lowerAscii w.description) ("haze") = false →
      format_weather_response (WeatherResult.ok w) none = cloudNarrative w) := by
  refine ⟨?_, ?_, ?_, ?_⟩
  · intro h; simp [format_weather_response, narrativeOf, h]
  · intro h1 h2; simp [format_weather_response, narrativeOf, h1, h2]
  · intro h1 h2; simp [format_weather_response, narrativeOf, h1, h2]
  · intro h1 h2
    have h1i := of_decide_eq_true h1
    have hsub : (String.data ("cloud")) <:+: (String.data ("light rain and clouds")) := by
      decide
    have hc : containsSub (lowerAscii w.description) ("cloud") = true :=
      decide_eq_true (hsub.trans h1i)
    simp [format_weather_response, narrativeOf, h2, hc]

/-- Witness for C7: a record described as "light rain and clouds" gets the
cloud narrative. -/
theorem format_branch_priority_witness :
    format_weather_response (WeatherResult.ok lracRecord) none = cloudNarrative lracRecord :=
  (format_branch_priority lracRecord).2.2.2 (by decide) (by decide)

/-- Counterexample for C7 as stated: a description containing
"light rain and clouds" but also "haze" selects the haze narrative, not
the cloud one. -/
theorem format_haze_overrides_cloud_ce :
    containsSub (lowerAscii hazeMixRecord.description) ("light rain and clouds") = true
    ∧ format_weather_response (WeatherResult.ok hazeMixRecord) none
        = hazeNarrative hazeMixRecord
    ∧ hazeNarrative hazeMixRecord ≠ cloudNarrative hazeMixRecord := by
  refine ⟨by decide, by decide, by decide⟩

/-- **C8**: `format_weather_response` is a pure function — two calls on the
same record and `days_ahead` yield identical output and nothing is
mutated — and a non-`None` `days_ahead` produces the
"the weather after N days ... will be like { ... }" wrapper while `None`
yields the narrative alone. -/
theorem format_weather_response_pure (w : WeatherRecord) (da : Option Int)
    (n : Int) (msg : String) :
    format_weather_response (WeatherResult.ok w) da
      = format_weather_response (WeatherResult.ok w) da
    ∧ format_weather_response (WeatherResult.error msg) da
      = format_weather_response (WeatherResult.error msg) da
    ∧ format_weather_response (WeatherResult.ok w) (some n) =
        "the weather after " ++ toString n ++ " days in " ++
          format_day_month w.date ++ " will be like \x7b " ++ weatherDetails w ++
          " \x7d\n\n" ++ narrativeOf w
    ∧ format_weather_response (WeatherResult.ok w) none = narrativeOf w :=
  ⟨rfl, rfl, rfl, rfl⟩

/-- **C9**: both tool entry points replace a `None` date by the current UTC
datetime, so `get_weather` is always invoked with a non-`None` date: the
result never depends on the current-conditions response and the queried
endpoint is always the forecast URL. -/
theorem entry_points_always_forecast (cur cur2 : Nat × CurrentBody)
    (fore : Nat × ForecastBody) (echo : Except Unit IpEchoResponse)
    (geo : String → Except Unit GeoResponse) (now : Int) (q loc : String)
    (d? : Option Int) :
    get_weather_without_location cur fore echo geo now q none
      = get_weather_without_location cur fore echo geo now q (some now)
    ∧ get_weather_for_location cur fore now loc none
      = get_weather_for_location cur fore now loc (some now)
    ∧ get_weather_for_location cur fore now loc d?
      = format_weather_response (get_weather cur fore loc (some (d?.getD now)))
          (days_ahead_of (d?.getD now) now)
    ∧ get_weather_for_location cur fore now loc d?
      = get_weather_for_location cur2 fore now loc d?
    ∧ get_weather_without_location cur fore echo geo now q d?
      = get_weather_without_location cur2 fore echo geo now q d?
    ∧ weatherEndpointUrl (some (d?.getD now))
      = ("https://api.openweathermap.org/data/2.5/forecast") :=
  ⟨rfl, rfl, rfl, rfl, rfl, rfl⟩

/-- **C10** (amended): in both entry points `days_ahead` is
`(date.date() - today).days` exactly when the resolved datetime is
strictly greater than the current UTC instant and `None` otherwise; hence
the wrapper is never applied when the resolved datetime is not strictly in
the future — but a future instant belonging to today's date yields
`days_ahead = 0` and the wrapper *is* applied. -/
theorem days_ahead_future_only (now date : Int) (cur : Nat × CurrentBody)
    (fore : Nat × ForecastBody) (loc q : String) (echo : Except Unit IpEchoResponse)
    (geo : String → Except Unit GeoResponse) :
    (now < date → days_ahead_of date now = some (epochDay date - epochDay now))
    ∧ (date ≤ now → days_ahead_of date now = none)
    ∧ (date ≤ now → get_weather_for_location cur fore now loc (some date)
        = format_weather_response (get_weather cur fore loc (some date)) none)
    ∧ (date ≤ now → truthy (get_location_by_ip echo geo) = true →
        get_weather_without_location cur fore echo geo now q (some date)
          = format_weather_response
              (get_weather cur fore ((get_location_by_ip echo geo).getD "") (some date))
              none) := by
  refine ⟨?_, ?_, ?_, ?_⟩
  · intro h
    simp [days_ahead_of, h, epochDay]
  · intro h
    simp [days_ahead_of, not_lt.2 h]
  · intro h
    simp [get_weather_for_location, days_ahead_of, not_lt.2 h]
  · intro h ht
    simp [get_weather_without_location, days_ahead_of, not_lt.2 h, ht]

/-- Witness for C10: a strictly future date one day ahead yields
`days_ahead = 1`; a past date yields `None` and no wrapper in either path. -/
theorem days_ahead_future_only_witness :
    days_ahead_of 90000 0 = some 1
    ∧ days_ahead_of 50 100 = none
    ∧ get_weather_for_location (200, sampleCurrent) (200, sampleForecast) 100 ("Paris") (some 50)
      = format_weather_response
          (get_weather (200, sampleCurrent) (200, sampleForecast) ("Paris") (some 50)) none
    ∧ get_weather_without_location (200, sampleCurrent) (200, sampleForecast)
        (Except.ok ⟨200, ("1.2.3.4")⟩) (fun _ => Except.ok ⟨200, some ("Paris")⟩)
        100 ("q") (some 50)
      = format_weather_response
          (get_weather (200, sampleCurrent) (200, sampleForecast) ("Paris") (some 50)) none :=
  ⟨(days_ahead_future_only 0 90000 (200, sampleCurrent) (200, sampleForecast)
      ("Paris") ("q") (Except.error ()) (fun _ => Except.error ())).1 (by decide),
   (days_ahead_future_only 100 50 (200, sampleCurrent) (200, sampleForecast)
      ("Paris") ("q") (Except.error ()) (fun _ => Except.error ())).2.1 (by decide),
   (days_ahead_future_only 100 50 (200, sampleCurrent) (200, sampleForecast)
      ("Paris") ("q") (Except.error ()) (fun _ => Except.error ())).2.2.1 (by decide),
   (days_ahead_future_only 100 50 (200, sampleCurrent) (200, sampleForecast)
      ("Paris") ("q") (Except.ok ⟨200, ("1.2.3.4")⟩)
      (fun _ => Except.ok ⟨200, some ("Paris")⟩)).2.2.2 (by decide) (by decide)⟩

/-- Counterexample for C10 as stated: an instant one hour into the epoch
day, with `now` at the start of that same day, resolves to *today's* date
(equal day numbers), yet `days_ahead` is `some 0` and the output carries
the "after 0 days" wrapper instead of the bare narrative. -/
theorem wrapper_applied_today_ce :
    epochDay 3600 = epochDay 0
    ∧ days_ahead_of 3600 0 = some 0
    ∧ get_weather_for_location (200, sampleCurrent) (200, sameDayForecast) 0 ("Dhaka") (some 3600)
      ≠ format_weather_response
          (get_weather (200, sampleCurrent) (200, sameDayForecast) ("Dhaka") (some 3600)) none := by
  refine ⟨by decide, by decide, by decide⟩
